import Mathlib

/-!
Verification of the HTTP control surface of the UI-TARS desktop agent
(`apps/ui-tars/src/main/services/httpServer.ts`).

The development shallowly embeds the `HttpServerService` class: its
configuration lifecycle (`setConfig` / `start` / `stop`), the request
handler (`handleRequest`), and the asynchronous settlement of the
detached `runAgent` invocation.  The process-wide zustand store is
embedded as an explicit `RunState` record threaded through the handler;
`store.setState` calls become record updates (shallow merge).  The
JavaScript runtime's `JSON.parse` and the truthiness / `typeof` checks
used by the handler are modelled explicitly below.
-/

/-- Json values, the image of `JSON.parse`.  Object fields are kept in
source order; duplicate keys are resolved by last-binding-wins lookup,
matching JavaScript object construction.  Numeric literals are truncated
to their integer part: the handler only ever distinguishes strings from
non-strings and tests untyped truthiness, and a fractional part can never
change either outcome as observed by the handler. -/
inductive Json where
  | null
  | bool (b : Bool)
  | num (n : Int)
  | str (s : String)
  | arr (elems : List Json)
  | obj (fields : List (String × Json))

/-- Left brace character, written via its code point. -/
def lbrace : Char := Char.ofNat 123

/-- Right brace character, written via its code point. -/
def rbrace : Char := Char.ofNat 125

/-- Whitespace accepted between JSON tokens (ECMA-404 `ws`). -/
def jsonWs (c : Char) : Bool :=
  c = ' ' || c = '\t' || c = '\n' || c = '\r'

/-- Drop leading JSON whitespace. -/
def skipWs : List Char → List Char
  | [] => []
  | c :: rest => if jsonWs c then skipWs rest else c :: rest

/-- Value of a hexadecimal digit, if the character is one. -/
def hexVal (c : Char) : Option Nat :=
  if '0' ≤ c ∧ c ≤ '9' then some (c.toNat - 48)
  else if 'a' ≤ c ∧ c ≤ 'f' then some (c.toNat - 87)
  else if 'A' ≤ c ∧ c ≤ 'F' then some (c.toNat - 55)
  else none

/-- Decimal value of a digit string. -/
def digitsToNat (ds : List Char) : Nat :=
  ds.foldl (fun n c => n * 10 + (c.toNat - 48)) 0

/-- Body of a JSON string literal after the opening quote, with the
standard escapes.  Unescaped control characters (U+0000–U+001F) are
rejected, as ECMA-404 and `JSON.parse` reject them.  `\uXXXX` escapes
are mapped through `Char.ofNat` (invalid scalar values collapse to NUL;
the handler never inspects such strings beyond emptiness and type). -/
def parseStringBody : Nat → List Char → String → Except String (String × List Char)
  | 0, _, _ => .error "fuel exhausted"
  | _ + 1, [], _ => .error "Unterminated string in JSON"
  | fuel + 1, c :: rest, acc =>
    if c = '"' then .ok (acc, rest)
    else if c.toNat < 32 then .error "Bad control character in JSON"
    else if c = '\\' then
      match rest with
      | [] => .error "Unterminated escape in JSON"
      | e :: rest2 =>
        if e = '"' then parseStringBody fuel rest2 (acc.push '"')
        else if e = '\\' then parseStringBody fuel rest2 (acc.push '\\')
        else if e = '/' then parseStringBody fuel rest2 (acc.push '/')
        else if e = 'b' then parseStringBody fuel rest2 (acc.push (Char.ofNat 8))
        else if e = 'f' then parseStringBody fuel rest2 (acc.push (Char.ofNat 12))
        else if e = 'n' then parseStringBody fuel rest2 (acc.push '\n')
        else if e = 'r' then parseStringBody fuel rest2 (acc.push '\r')
        else if e = 't' then parseStringBody fuel rest2 (acc.push '\t')
        else if e = 'u' then
          match rest2 with
          | a :: b :: c2 :: d :: rest3 =>
            match hexVal a, hexVal b, hexVal c2, hexVal d with
            | some ha, some hb, some hc, some hd =>
              parseStringBody fuel rest3
                (acc.push (Char.ofNat (((ha * 16 + hb) * 16 + hc) * 16 + hd)))
            | _, _, _, _ => .error "Bad Unicode escape in JSON"
          | _ => .error "Bad Unicode escape in JSON"
        else .error "Bad escape in JSON"
    else parseStringBody fuel rest (acc.push c)

/-- Consume an optional fraction part (`.digits`). -/
def parseFrac (cs : List Char) : Except String (List Char) :=
  match cs with
  | c :: rest =>
    if c = '.' then
      let p := rest.span Char.isDigit
      if p.1.isEmpty then .error "Invalid number in JSON" else .ok p.2
    else .ok cs
  | [] => .ok []

/-- Consume an optional exponent part (`e[+-]digits`). -/
def parseExp (cs : List Char) : Except String (List Char) :=
  match cs with
  | c :: rest =>
    if c = 'e' ∨ c = 'E' then
      let rest2 := match rest with
        | s :: r2 => if s = '+' ∨ s = '-' then r2 else rest
        | [] => rest
      let p := rest2.span Char.isDigit
      if p.1.isEmpty then .error "Invalid number in JSON" else .ok p.2
    else .ok cs
  | [] => .ok []

/-- JSON number literal.  The full grammar is consumed; an integer part
with a leading zero followed by further digits (e.g. `01`) is rejected,
as ECMA-404 and `JSON.parse` reject it.  The stored value is the
(signed) integer part, see the comment on `Json`. -/
def parseNumber (cs : List Char) : Except String (Json × List Char) :=
  let p := match cs with
    | c :: rest => if c = '-' then (true, rest) else (false, cs)
    | [] => (false, cs)
  let q := p.2.span Char.isDigit
  if q.1.isEmpty then .error "Invalid number in JSON"
  else
    match q.1 with
    | '0' :: _ :: _ => .error "Invalid number in JSON"
    | _ =>
      match parseFrac q.2 with
      | .error e => .error e
      | .ok cs3 =>
        match parseExp cs3 with
        | .error e => .error e
        | .ok cs4 =>
          let n : Int := Int.ofNat (digitsToNat q.1)
          .ok (.num (if p.1 then -n else n), cs4)

mutual

/-- Recursive-descent JSON value parser, fueled for termination.  The
fuel supplied by `jsonParse` is generous enough that it can never run
out on the inputs of interest (nesting consumes at least one character
per two fuel decrements). -/
def parseValue : Nat → List Char → Except String (Json × List Char)
  | 0, _ => .error "fuel exhausted"
  | fuel + 1, cs =>
    match skipWs cs with
    | [] => .error "Unexpected end of JSON input"
    | c :: rest =>
      if c = lbrace then
        match skipWs rest with
        | c2 :: rest2 =>
          if c2 = rbrace then .ok (.obj [], rest2)
          else parseMembers fuel (c2 :: rest2) []
        | [] => .error "Unexpected end of JSON input"
      else if c = '[' then
        match skipWs rest with
        | c2 :: rest2 =>
          if c2 = ']' then .ok (.arr [], rest2)
          else parseElements fuel (c2 :: rest2) []
        | [] => .error "Unexpected end of JSON input"
      else if c = '"' then
        match parseStringBody (fuel + 1) rest "" with
        | .error e => .error e
        | .ok (s, rest2) => .ok (.str s, rest2)
      else if c = 't' then
        match rest with
        | 'r' :: 'u' :: 'e' :: rest2 => .ok (.bool true, rest2)
        | _ => .error "Unexpected token in JSON"
      else if c = 'f' then
        match rest with
        | 'a' :: 'l' :: 's' :: 'e' :: rest2 => .ok (.bool false, rest2)
        | _ => .error "Unexpected token in JSON"
      else if c = 'n' then
        match rest with
        | 'u' :: 'l' :: 'l' :: rest2 => .ok (.null, rest2)
        | _ => .error "Unexpected token in JSON"
      else if c = '-' ∨ c.isDigit then
        parseNumber (c :: rest)
      else .error "Unexpected token in JSON"

/-- Members of a JSON object after the opening brace (first key not yet
consumed, object known to be non-empty). -/
def parseMembers : Nat → List Char → List (String × Json) → Except String (Json × List Char)
  | 0, _, _ => .error "fuel exhausted"
  | fuel + 1, cs, acc =>
    match skipWs cs with
    | c :: rest =>
      if c = '"' then
        match parseStringBody (fuel + 1) rest "" with
        | .error e => .error e
        | .ok (key, rest2) =>
          match skipWs rest2 with
          | c2 :: rest3 =>
            if c2 = ':' then
              match parseValue fuel rest3 with
              | .error e => .error e
              | .ok (v, rest4) =>
                match skipWs rest4 with
                | c3 :: rest5 =>
                  if c3 = ',' then parseMembers fuel rest5 (acc ++ [(key, v)])
                  else if c3 = rbrace then .ok (.obj (acc ++ [(key, v)]), rest5)
                  else .error "Expected comma or end of object in JSON"
                | [] => .error "Unexpected end of JSON input"
            else .error "Expected colon in JSON object"
          | [] => .error "Unexpected end of JSON input"
      else .error "Expected string key in JSON object"
    | [] => .error "Unexpected end of JSON input"

/-- Elements of a JSON array after the opening bracket (array known to
be non-empty). -/
def parseElements : Nat → List Char → List Json → Except String (Json × List Char)
  | 0, _, _ => .error "fuel exhausted"
  | fuel + 1, cs, acc =>
    match parseValue fuel cs with
    | .error e => .error e
    | .ok (v, rest) =>
      match skipWs rest with
      | c :: rest2 =>
        if c = ',' then parseElements fuel rest2 (acc ++ [v])
        else if c = ']' then .ok (.arr (acc ++ [v]), rest2)
        else .error "Expected comma or end of array in JSON"
      | [] => .error "Unexpected end of JSON input"

end

/-- Model of the JavaScript runtime's `JSON.parse`: parse one value and
require only whitespace after it.  Fallible, as `JSON.parse` throws
`SyntaxError` on malformed input. -/
def jsonParse (s : String) : Except String Json :=
  let cs := s.toList
  match parseValue (2 * cs.length + 16) cs with
  | .error e => .error e
  | .ok (j, rest) =>
    match skipWs rest with
    | [] => .ok j
    | _ => .error "Unexpected non-whitespace character after JSON"

example : jsonParse "\x7b\x7d" = .ok (.obj []) := rfl
example : jsonParse "null" = .ok .null := rfl
example : jsonParse "\x7b\"instructions\":\"hi\"\x7d" = .ok (.obj [("instructions", .str "hi")]) := rfl
example : jsonParse "" = .error "Unexpected end of JSON input" := rfl
example : jsonParse "\x7b" = .error "Unexpected end of JSON input" := rfl
example : jsonParse " [1, true, \"a\\n\", -2.5e3] " =
    .ok (.arr [.num 1, .bool true, .str "a\n", .num (-2)]) := rfl
example : jsonParse "0" = .ok (.num 0) := rfl
example : jsonParse "-0.5" = .ok (.num 0) := rfl
example : jsonParse "01" = .error "Invalid number in JSON" := rfl
example : jsonParse "-01" = .error "Invalid number in JSON" := rfl
example : jsonParse "\"a\nb\"" = .error "Bad control character in JSON" := rfl
example : jsonParse "\x7b\"instructions\":\"a\nb\"\x7d" =
    .error "Bad control character in JSON" := rfl
example : jsonParse "\"a\tb\"" = .error "Bad control character in JSON" := rfl

/-- Agent lifecycle phases.  Modelled from the spec: the `StatusEnum`
imported from `@ui-tars/shared/types` is not part of the sources under
verification; the spec describes it as "enum `{IDLE, RUNNING, END,
ERROR, ...}`".  Only `RUNNING`, `END` and `ERROR` are inspected or
written by the handler, so the model carries these plus `IDLE` as the
representative of every other phase. -/
inductive StatusEnum where
  | IDLE
  | RUNNING
  | END
  | ERROR
deriving DecidableEq, Repr

/-- Serialization of a status value, as `JSON.stringify` would emit the
string-valued TypeScript enum.  Modelled from the spec; the exact
strings are irrelevant to every claim. -/
def statusString : StatusEnum → String
  | .IDLE => "idle"
  | .RUNNING => "running"
  | .END => "end"
  | .ERROR => "error"

/-- Model of the platform `AbortController`: an identity (so that
freshness is expressible) and the aborted flag set by `abort()`. -/
structure AbortController where
  id : Nat
  aborted : Bool
deriving DecidableEq, Repr

/-- The process-wide zustand store state, restricted to the fields the
HTTP server reads or writes (`status`, `thinking`, `instructions`,
`messages`, `errorMsg`, `abortController`).  `Option` encodes JavaScript
`null`/`undefined`; `messages` content is irrelevant to the handler,
which only takes `messages?.length`. -/
structure RunState where
  status : StatusEnum
  thinking : Bool
  instructions : Option String
  messages : Option (List String)
  errorMsg : Option String
  abortController : Option AbortController
deriving DecidableEq, Repr

/-- JavaScript truthiness of the destructured `instructions` binding
(`none` is `undefined`).  Numeric truthiness tests the stored integer
part against zero; this diverges from JavaScript only for non-integral
non-zero numbers, which the handler rejects as non-strings either way. -/
def jsFalsy : Option Json → Bool
  | none => true
  | some .null => true
  | some (.bool b) => !b
  | some (.num n) => n == 0
  | some (.str s) => s == ""
  | some (.arr _) => false
  | some (.obj _) => false

/-- JavaScript `typeof v === 'string'` on the destructured binding. -/
def jsIsString : Option Json → Bool
  | some (.str _) => true
  | _ => false

/-- The string content of a binding known to be a string; the default
is never reached on the guarded path. -/
def jsStr : Option Json → String
  | some (.str s) => s
  | _ => ""

/-- JavaScript destructuring `const { key } = data`: throws a
`TypeError` when `data` is `null` (so `JSON.parse` returning `null`
lands in the handler's catch block), yields the property for objects
(last binding wins, as in JavaScript object construction), and yields
`undefined` for every other primitive or array. -/
def jsDestructure (data : Json) (key : String) : Except String (Option Json) :=
  match data with
  | .null => .error ("Cannot destructure property '" ++ key ++ "' as it is null.")
  | .obj fields => .ok (List.lookup key fields.reverse)
  | _ => .ok none

/-- Server configuration (`HttpServerConfig` interface). -/
structure HttpServerConfig where
  enabled : Bool
  port : Nat
  host : String
  apiKey : Option String
deriving DecidableEq, Repr

/-- The `DEFAULT_CONFIG` constant. -/
def DEFAULT_CONFIG : HttpServerConfig :=
  { enabled := false, port := 9527, host := "127.0.0.1", apiKey := none }

/-- A `Partial<HttpServerConfig>` argument to `setConfig`: each field is
present or absent; a present `apiKey` carries an `Option String` since
the TypeScript field is itself optional. -/
structure PartialHttpServerConfig where
  enabled : Option Bool := none
  port : Option Nat := none
  host : Option String := none
  apiKey : Option (Option String) := none

/-- Object spread `{ ...config, ...partial }`: fields present in the
partial override, all others are retained (shallow merge). -/
def mergeConfig (c : HttpServerConfig) (p : PartialHttpServerConfig) : HttpServerConfig :=
  { enabled := p.enabled.getD c.enabled
    port := p.port.getD c.port
    host := p.host.getD c.host
    apiKey := p.apiKey.getD c.apiKey }

/-- Observable state of the `HttpServerService` singleton: whether the
`http.Server` handle is non-null, the current config, and the log lines
emitted (the log makes "no-op that logs a warning" expressible). -/
structure ServiceState where
  serverRunning : Bool
  config : HttpServerConfig
  log : List String
deriving DecidableEq, Repr

namespace HttpServerService

/-- The `start()` method: warn and return if the server handle already
exists; return if the config disables the server; otherwise create the
listener.  Bind errors are only logged (the `error` event handler), so
they do not alter the modelled control flow. -/
def start (s : ServiceState) : ServiceState :=
  if s.serverRunning then
    { s with log := s.log ++ ["warn: Server already running"] }
  else if !s.config.enabled then
    { s with log := s.log ++ ["info: Server is disabled"] }
  else
    { s with serverRunning := true, log := s.log ++ ["info: Server started"] }

/-- The `stop()` method: close the listener and null the handle
immediately when one exists. -/
def stop (s : ServiceState) : ServiceState :=
  if s.serverRunning then
    { s with serverRunning := false, log := s.log ++ ["info: Server stopped"] }
  else s

/-- The `setConfig()` method: shallow-merge the partial into the current
config, then stop a running listener that the merged config disables, or
start a stopped listener that the merged config enables. -/
def setConfig (p : PartialHttpServerConfig) (s : ServiceState) : ServiceState :=
  let s1 : ServiceState := { s with config := mergeConfig s.config p }
  if s1.serverRunning ∧ !s1.config.enabled then stop s1
  else if !s1.serverRunning ∧ s1.config.enabled then start s1
  else s1

end HttpServerService

/-- An incoming HTTP request as the handler observes it: method, url,
the `x-api-key` header (the only header it reads) and the fully
buffered body. -/
structure HttpRequest where
  method : String
  url : String
  xApiKey : Option String
  body : String
deriving DecidableEq, Repr

/-- An HTTP response as produced through `sendJson` (status code and
JSON body) or, for the CORS preflight, a bare status with no body. -/
structure HttpResponse where
  statusCode : Nat
  body : Option Json

/-- Response body `{error:"Unauthorized"}`. -/
def unauthorizedBody : Json := .obj [("error", .str "Unauthorized")]

/-- Response body `{error:"Not Found"}`. -/
def notFoundBody : Json := .obj [("error", .str "Not Found")]

/-- Response body of a `/run` validation failure. -/
def badRequestBody : Json :=
  .obj [("error", .str "Bad Request"),
        ("message", .str "instructions is required and must be a string")]

/-- Response body of the `/run` mutual-exclusion rejection. -/
def conflictBody : Json :=
  .obj [("error", .str "Conflict"), ("message", .str "Agent is already running")]

/-- Response body of the `/run` catch block, with the best-effort
extracted message. -/
def internalErrorBody (msg : String) : Json :=
  .obj [("error", .str "Internal Server Error"), ("message", .str msg)]

/-- Response body of an accepted `/run`. -/
def agentStartedBody (instructions : String) : Json :=
  .obj [("success", .bool true), ("message", .str "Agent started"),
        ("instructions", .str instructions)]

/-- Response body of `/stop`. -/
def agentStoppedBody : Json :=
  .obj [("success", .bool true), ("message", .str "Agent stopped")]

/-- Response body of `GET /health`. -/
def healthBody (st : RunState) : Json :=
  .obj [("status", .str "ok"),
        ("agentStatus", .str (statusString st.status)),
        ("isRunning", .bool st.thinking)]

/-- The `messages?.length || 0` expression of `GET /status`. -/
def messageCount (st : RunState) : Int :=
  match st.messages with
  | some l => Int.ofNat l.length
  | none => 0

/-- Response body of `GET /status`.  `JSON.stringify` omits a key whose
value is `undefined`, hence the optional `instructions` entry. -/
def statusBody (st : RunState) : Json :=
  .obj ([("status", .str (statusString st.status))]
    ++ (match st.instructions with
        | some s => [("instructions", .str s)]
        | none => [])
    ++ [("isRunning", .bool st.thinking),
        ("messageCount", .num (messageCount st))])

/-- The `body || '\x7b\x7d'` default applied before `JSON.parse`: the
accumulated body string is falsy exactly when it is empty. -/
def effectiveBody (body : String) : String :=
  if body = "" then "\x7b\x7d" else body

namespace HttpServerService

/-- The `req.on('end')` continuation of `POST /run` (the body is fully
buffered): parse the body, validate `instructions`, apply the
mutual-exclusion gate, and on acceptance merge the new run fields into
the store and launch `runAgent` detached.  The returned triple is the
response, the store state at the moment the response is sent, and
whether `runAgent` was launched.  The response never depends on the
runAgent outcome: settlement is a separate step, `settleRun`. -/
def handleRunEnd (body : String) (st : RunState) (freshId : Nat) :
    HttpResponse × RunState × Bool :=
  match jsonParse (effectiveBody body) with
  | .error e => (⟨500, some (internalErrorBody e)⟩, st, false)
  | .ok data =>
    match jsDestructure data "instructions" with
    | .error e => (⟨500, some (internalErrorBody e)⟩, st, false)
    | .ok instructions =>
      if jsFalsy instructions || !(jsIsString instructions) then
        (⟨400, some badRequestBody⟩, st, false)
      else if st.thinking ∨ st.status = StatusEnum.RUNNING then
        (⟨409, some conflictBody⟩, st, false)
      else
        (⟨200, some (agentStartedBody (jsStr instructions))⟩,
         { st with instructions := some (jsStr instructions)
                   abortController := some { id := freshId, aborted := false }
                   thinking := true
                   errorMsg := none },
         true)

/-- The `POST /stop` branch: read the stored controller, merge
`status=END, thinking=false` into the store, call `abort()` on the
controller when present, and answer 200 unconditionally. -/
def handleStop (st : RunState) : HttpResponse × RunState × Bool :=
  let st1 : RunState := { st with status := StatusEnum.END, thinking := false }
  let st2 : RunState :=
    match st.abortController with
    | some ac => { st1 with abortController := some { ac with aborted := true } }
    | none => st1
  (⟨200, some agentStoppedBody⟩, st2, false)

/-- Truthiness of `this.config.apiKey`: configured means present and
non-empty. -/
def apiKeyConfigured (cfg : HttpServerConfig) : Bool :=
  match cfg.apiKey with
  | some key => key != ""
  | none => false

/-- The authentication gate: when an apiKey is configured, the request
fails unless the `x-api-key` header is present and equal
(`apiKey !== this.config.apiKey` with an absent header being
`undefined`). -/
def authFails (cfg : HttpServerConfig) (req : HttpRequest) : Bool :=
  apiKeyConfigured cfg && req.xApiKey != cfg.apiKey

/-- The `handleRequest` method: CORS preflight, authentication, then
routing.  Returns the response, the store state when the response is
sent, and whether a detached `runAgent` task was launched. -/
def handleRequest (cfg : HttpServerConfig) (req : HttpRequest) (st : RunState)
    (freshId : Nat) : HttpResponse × RunState × Bool :=
  if req.method = "OPTIONS" then (⟨200, none⟩, st, false)
  else if authFails cfg req then (⟨401, some unauthorizedBody⟩, st, false)
  else if req.method = "GET" ∧ req.url = "/health" then
    (⟨200, some (healthBody st)⟩, st, false)
  else if req.method = "GET" ∧ req.url = "/status" then
    (⟨200, some (statusBody st)⟩, st, false)
  else if req.method = "POST" ∧ req.url = "/run" then
    handleRunEnd req.body st freshId
  else if req.method = "POST" ∧ req.url = "/stop" then
    handleStop st
  else (⟨404, some notFoundBody⟩, st, false)

/-- Settlement of the detached `runAgent` invocation (`.then` /
`.catch` continuations): success clears `thinking`; failure clears
`thinking` and records `status=ERROR` with the error's message. -/
def settleRun (outcome : Except String Unit) (st : RunState) : RunState :=
  match outcome with
  | .ok _ => { st with thinking := false }
  | .error msg =>
    { st with thinking := false, status := StatusEnum.ERROR, errorMsg := some msg }

end HttpServerService

/-- Total counterpart of `jsDestructure` for non-null parsed bodies: the
`instructions` property of an object (absent properties and non-object
bodies give `undefined`). -/
def jsGet (data : Json) (key : String) : Option Json :=
  match data with
  | .obj fields => List.lookup key fields.reverse
  | _ => none

/-- A destructured `instructions` binding passes the handler's
validation (`!instructions || typeof instructions !== 'string'` is
false) exactly when it is a non-empty string. -/
def validInstructionsField : Option Json → Bool
  | some (.str s) => s != ""
  | _ => false

/-- An idle run state: nothing in flight, no prior run recorded. -/
def st_idle : RunState :=
  { status := .IDLE, thinking := false, instructions := none,
    messages := none, errorMsg := none, abortController := none }

/-- A busy run state as left by a previously accepted `/run`. -/
def st_busy : RunState :=
  { status := .RUNNING, thinking := true, instructions := some "prior run",
    messages := some ["m1"], errorMsg := none,
    abortController := some { id := 1, aborted := false } }

/-- A `POST /run` request with the given body and no api key header. -/
def runReq (body : String) : HttpRequest :=
  { method := "POST", url := "/run", xApiKey := none, body := body }

/-- A `POST /stop` request with no api key header. -/
def stopReq : HttpRequest :=
  { method := "POST", url := "/stop", xApiKey := none, body := "" }

/-- A `GET /health` request with no api key header. -/
def healthReq : HttpRequest :=
  { method := "GET", url := "/health", xApiKey := none, body := "" }

/-- A service whose listener is running with the server enabled. -/
def svc_on : ServiceState :=
  { serverRunning := true, config := { DEFAULT_CONFIG with enabled := true }, log := [] }

/-- A service whose listener is not running, with the default config. -/
def svc_off : ServiceState :=
  { serverRunning := false, config := DEFAULT_CONFIG, log := [] }

example :
    HttpServerService.handleRequest DEFAULT_CONFIG (runReq "\x7b\"instructions\":\"hi\"\x7d")
      st_idle 7 =
    (⟨200, some (agentStartedBody "hi")⟩,
     { st_idle with instructions := some "hi",
                    abortController := some { id := 7, aborted := false },
                    thinking := true, errorMsg := none },
     true) := rfl

example :
    (HttpServerService.handleRequest DEFAULT_CONFIG (runReq "\x7b\"instructions\":\"\"\x7d")
      st_idle 0).1.statusCode = 400 := rfl

example :
    (HttpServerService.handleRequest DEFAULT_CONFIG (runReq "null") st_idle 0).1.statusCode
      = 500 := rfl

example :
    HttpServerService.handleRequest DEFAULT_CONFIG
        (runReq "\x7b\"instructions\":\"a\nb\"\x7d") st_idle 0 =
      (⟨500, some (internalErrorBody "Bad control character in JSON")⟩, st_idle, false) := rfl

example :
    HttpServerService.handleRequest DEFAULT_CONFIG (runReq "") st_idle 0 =
    (⟨400, some badRequestBody⟩, st_idle, false) := rfl

example :
    (HttpServerService.handleRequest DEFAULT_CONFIG (runReq "\x7b\"instructions\":\"x\"\x7d")
      st_busy 0) = (⟨409, some conflictBody⟩, st_busy, false) := rfl

example :
    HttpServerService.handleRequest DEFAULT_CONFIG stopReq st_busy 0 =
    (⟨200, some agentStoppedBody⟩,
     { st_busy with status := .END, thinking := false,
                    abortController := some { id := 1, aborted := true } },
     false) := rfl

/-- A configuration with an api key set. -/
def cfgKey : HttpServerConfig := { DEFAULT_CONFIG with apiKey := some "secret" }

/-- A `GET /health` request presenting a wrong api key. -/
def reqBadKey : HttpRequest :=
  { method := "GET", url := "/health", xApiKey := some "wrong", body := "" }

/-- A CORS preflight request. -/
def optionsReq : HttpRequest :=
  { method := "OPTIONS", url := "/run", xApiKey := none, body := "" }

/-- A `GET /status` request with no api key header. -/
def statusReq : HttpRequest :=
  { method := "GET", url := "/status", xApiKey := none, body := "" }

/-- Helper lemma: the handler's rejection test on the destructured
`instructions` binding is exactly the negation of
`validInstructionsField`. -/
lemma validation_gate (v : Option Json) :
    (jsFalsy v || !(jsIsString v)) = !(validInstructionsField v) := by
  rcases v with _ | j
  · rfl
  · cases j <;> simp [jsFalsy, jsIsString, validInstructionsField, bne]

/-- Helper lemma: on a non-null parsed body, destructuring succeeds and
yields the (total) property lookup. -/
lemma jsDestructure_eq_jsGet (j : Json) (hnn : j ≠ .null) :
    jsDestructure j "instructions" = .ok (jsGet j "instructions") := by
  cases j
  · exact absurd rfl hnn
  all_goals rfl

/-- Helper lemma: the `/run` continuation never answers 401. -/
lemma handleRunEnd_statusCode_ne_401 (body : String) (st : RunState) (f : Nat) :
    (HttpServerService.handleRunEnd body st f).1.statusCode ≠ 401 := by
  unfold HttpServerService.handleRunEnd
  split
  · simp
  · split
    · simp
    · split
      · simp
      · split
        · simp
        · simp


/-- Claim C1, counterexample.  The claim asserts a 200 response for any
body whose `instructions` field is present and a string, from a
non-busy state.  The body `{"instructions":""}` parses to an object
whose `instructions` field is present and is a string, the state is
idle and authentication passes, yet the handler answers 400: the
JavaScript truthiness test `!instructions` also rejects the empty
string. -/
theorem c1_counterexample :
    jsonParse (effectiveBody (runReq "\x7b\"instructions\":\"\"\x7d").body) =
      .ok (.obj [("instructions", .str "")]) ∧
    st_idle.thinking = false ∧ st_idle.status ≠ StatusEnum.RUNNING ∧
    HttpServerService.authFails DEFAULT_CONFIG (runReq "\x7b\"instructions\":\"\"\x7d") = false ∧
    (HttpServerService.handleRequest DEFAULT_CONFIG (runReq "\x7b\"instructions\":\"\"\x7d")
        st_idle 0).1.statusCode = 400 ∧
    (HttpServerService.handleRequest DEFAULT_CONFIG (runReq "\x7b\"instructions\":\"\"\x7d")
        st_idle 0).1.statusCode ≠ 200 :=
  ⟨rfl, rfl, by decide, rfl, rfl, by decide⟩

/-- Claim C1 as amended: for every authenticated `POST /run` whose body
parses as JSON with `instructions` present and a NON-EMPTY string, from
a state with `thinking = false` and `status ≠ RUNNING`, the handler
answers 200 `{success:true, message:"Agent started", instructions}` and
the store becomes the old state with the submitted instructions, a fresh
(unaborted) `AbortController`, `thinking = true` and `errorMsg = null`;
the detached `runAgent` task is launched and the returned response is
computed before and independently of its settlement (`settleRun`). -/
theorem c1_run_accepted (cfg : HttpServerConfig) (req : HttpRequest) (st : RunState)
    (f : Nat) (j : Json) (s : String)
    (hauth : HttpServerService.authFails cfg req = false)
    (hm : req.method = "POST") (hu : req.url = "/run")
    (hp : jsonParse (effectiveBody req.body) = .ok j)
    (hd : jsDestructure j "instructions" = .ok (some (.str s)))
    (hs : s ≠ "")
    (hth : st.thinking = false) (hst : st.status ≠ StatusEnum.RUNNING) :
    HttpServerService.handleRequest cfg req st f =
      (⟨200, some (agentStartedBody s)⟩,
       { st with instructions := some s,
                 abortController := some { id := f, aborted := false },
                 thinking := true, errorMsg := none },
       true) := by
  have hno : req.method ≠ "OPTIONS" := by rw [hm]; decide
  unfold HttpServerService.handleRequest HttpServerService.handleRunEnd
  simp only [hm, hu, hno, hauth, hp, hd]
  simp [jsFalsy, jsIsString, jsStr, hs, hth, hst]

/-- Claim C1 witness: concrete accepted run. -/
theorem c1_witness :
    HttpServerService.handleRequest DEFAULT_CONFIG (runReq "\x7b\"instructions\":\"open\"\x7d")
        st_idle 7 =
      (⟨200, some (agentStartedBody "open")⟩,
       { st_idle with instructions := some "open",
                      abortController := some { id := 7, aborted := false },
                      thinking := true, errorMsg := none },
       true) :=
  c1_run_accepted DEFAULT_CONFIG (runReq "\x7b\"instructions\":\"open\"\x7d") st_idle 7
    (.obj [("instructions", .str "open")]) "open" rfl rfl rfl rfl rfl (by decide) rfl (by decide)

/-- Claim C2: an authenticated `POST /run` that passes validation
(its body parses to a JSON value whose `instructions` binding is a
non-empty string, i.e. reaches the mutual-exclusion gate) while
`thinking = true` or `status = RUNNING` answers 409
`{error:"Conflict", message:"Agent is already running"}`, leaves the
store — in particular `instructions` and the cancellation handle —
exactly as it was, and launches no run. -/
theorem c2_conflict (cfg : HttpServerConfig) (req : HttpRequest) (st : RunState)
    (f : Nat) (j : Json) (s : String)
    (hauth : HttpServerService.authFails cfg req = false)
    (hm : req.method = "POST") (hu : req.url = "/run")
    (hp : jsonParse (effectiveBody req.body) = .ok j)
    (hd : jsDestructure j "instructions" = .ok (some (.str s)))
    (hs : s ≠ "")
    (hbusy : st.thinking = true ∨ st.status = StatusEnum.RUNNING) :
    HttpServerService.handleRequest cfg req st f =
      (⟨409, some conflictBody⟩, st, false) := by
  have hno : req.method ≠ "OPTIONS" := by rw [hm]; decide
  unfold HttpServerService.handleRequest HttpServerService.handleRunEnd
  simp only [hm, hu, hno, hauth, hp, hd]
  simp [jsFalsy, jsIsString, hs, hbusy]

/-- Claim C2 witness: concrete conflict on a busy state. -/
theorem c2_witness :
    HttpServerService.handleRequest DEFAULT_CONFIG (runReq "\x7b\"instructions\":\"next\"\x7d")
        st_busy 0 =
      (⟨409, some conflictBody⟩, st_busy, false) :=
  c2_conflict DEFAULT_CONFIG (runReq "\x7b\"instructions\":\"next\"\x7d") st_busy 0
    (.obj [("instructions", .str "next")]) "next" rfl rfl rfl rfl rfl (by decide)
    (Or.inl rfl)

/-- Claim C3: the authentication gate.  First conjunct: with a non-empty
api key configured, every non-OPTIONS request whose `x-api-key` header
is absent or different answers 401 `{error:"Unauthorized"}` with the
store untouched.  Second conjunct: with no api key configured (absent or
empty), no request is ever answered 401.  Third conjunct: OPTIONS
requests answer 200 with no body for every configuration, in particular
without consulting the api key. -/
theorem c3_authentication_gate :
    (∀ (cfg : HttpServerConfig) (req : HttpRequest) (st : RunState) (f : Nat)
        (key : String), cfg.apiKey = some key → key ≠ "" →
        req.method ≠ "OPTIONS" → req.xApiKey ≠ some key →
        HttpServerService.handleRequest cfg req st f =
          (⟨401, some unauthorizedBody⟩, st, false)) ∧
    (∀ (cfg : HttpServerConfig) (req : HttpRequest) (st : RunState) (f : Nat),
        HttpServerService.apiKeyConfigured cfg = false →
        (HttpServerService.handleRequest cfg req st f).1.statusCode ≠ 401) ∧
    (∀ (cfg : HttpServerConfig) (req : HttpRequest) (st : RunState) (f : Nat),
        req.method = "OPTIONS" →
        HttpServerService.handleRequest cfg req st f = (⟨200, none⟩, st, false)) := by
  refine ⟨?_, ?_, ?_⟩
  · intro cfg req st f key hk hke hno hx
    have hauth : HttpServerService.authFails cfg req = true := by
      unfold HttpServerService.authFails HttpServerService.apiKeyConfigured
      rw [hk]
      simp [Bool.and_eq_true, bne_iff_ne]
      exact ⟨hke, hx⟩
    unfold HttpServerService.handleRequest
    simp [hno, hauth]
  · intro cfg req st f hconf
    have hauth : HttpServerService.authFails cfg req = false := by
      unfold HttpServerService.authFails
      rw [hconf]
      rfl
    unfold HttpServerService.handleRequest
    split
    · simp
    · simp only [hauth, Bool.false_eq_true, if_false]
      split
      · simp
      · split
        · simp
        · split
          · exact handleRunEnd_statusCode_ne_401 _ _ _
          · split
            · simp [HttpServerService.handleStop]
            · simp
  · intro cfg req st f hm
    unfold HttpServerService.handleRequest
    simp [hm]

/-- Claim C3 witness: a wrong key is rejected, the default configuration
never answers 401, and a preflight succeeds against a keyed
configuration. -/
theorem c3_witness :
    HttpServerService.handleRequest cfgKey reqBadKey st_idle 0 =
      (⟨401, some unauthorizedBody⟩, st_idle, false) ∧
    (HttpServerService.handleRequest DEFAULT_CONFIG healthReq st_idle 0).1.statusCode ≠ 401 ∧
    HttpServerService.handleRequest cfgKey optionsReq st_idle 0 =
      (⟨200, none⟩, st_idle, false) :=
  ⟨c3_authentication_gate.1 cfgKey reqBadKey st_idle 0 "secret" rfl (by decide)
      (by decide) (by decide),
   c3_authentication_gate.2.1 DEFAULT_CONFIG healthReq st_idle 0 rfl,
   c3_authentication_gate.2.2 cfgKey optionsReq st_idle 0 rfl⟩

/-- Claim C4, counterexample.  The claim asserts 400 if and only if the
parsed body's `instructions` field is absent or not a string.  The body
`"null"` is valid JSON whose parse result has no `instructions` field at
all, yet the handler answers 500, not 400: destructuring
`const { instructions } = data` throws a `TypeError` on `null`, which
the catch block converts to 500.  (The body `{"instructions":""}`
refutes the converse direction, see the C1 counterexample.) -/
theorem c4_counterexample :
    jsonParse (effectiveBody (runReq "null").body) = .ok .null ∧
    (HttpServerService.handleRequest DEFAULT_CONFIG (runReq "null") st_idle 0).1.statusCode
      = 500 ∧
    (HttpServerService.handleRequest DEFAULT_CONFIG (runReq "null") st_idle 0).1.statusCode
      ≠ 400 :=
  ⟨rfl, rfl, by decide⟩

/-- Claim C4 as amended: for every authenticated `POST /run` whose body
parses as JSON to a value OTHER THAN `null`, the handler answers 400
`{error:"Bad Request", message:"instructions is required and must be a
string"}` if and only if the `instructions` field is absent, not a
string, or the EMPTY string; and whenever that holds the full result is
the 400 response with the store untouched and no run launched.  (A body
parsing to `null` instead hits the destructuring `TypeError` and is
answered 500.) -/
theorem c4_badrequest_iff (cfg : HttpServerConfig) (req : HttpRequest) (st : RunState)
    (f : Nat) (j : Json)
    (hauth : HttpServerService.authFails cfg req = false)
    (hm : req.method = "POST") (hu : req.url = "/run")
    (hp : jsonParse (effectiveBody req.body) = .ok j)
    (hnn : j ≠ .null) :
    (((HttpServerService.handleRequest cfg req st f).1.statusCode = 400) ↔
        validInstructionsField (jsGet j "instructions") = false) ∧
    (validInstructionsField (jsGet j "instructions") = false →
        HttpServerService.handleRequest cfg req st f =
          (⟨400, some badRequestBody⟩, st, false)) := by
  have hd := jsDestructure_eq_jsGet j hnn
  have hno : req.method ≠ "OPTIONS" := by rw [hm]; decide
  have hroute : HttpServerService.handleRequest cfg req st f =
      HttpServerService.handleRunEnd req.body st f := by
    unfold HttpServerService.handleRequest
    simp [hno, hauth, hm, hu]
  rw [hroute]
  unfold HttpServerService.handleRunEnd
  simp only [hp, hd]
  by_cases hv : validInstructionsField (jsGet j "instructions") = false
  · have hgate : (jsFalsy (jsGet j "instructions")
        || !(jsIsString (jsGet j "instructions"))) = true := by
      rw [validation_gate, hv]
      rfl
    simp [hgate, hv]
  · have hv' : validInstructionsField (jsGet j "instructions") = true := by
      revert hv
      cases validInstructionsField (jsGet j "instructions") <;> simp
    have hgate : (jsFalsy (jsGet j "instructions")
        || !(jsIsString (jsGet j "instructions"))) = false := by
      rw [validation_gate, hv']
      rfl
    simp [hgate, hv']
    split <;> simp

/-- Claim C4 witness: an empty JSON object body (no `instructions`
field) is answered 400 with the store untouched. -/
theorem c4_witness :
    HttpServerService.handleRequest DEFAULT_CONFIG (runReq "\x7b\x7d") st_idle 0 =
      (⟨400, some badRequestBody⟩, st_idle, false) :=
  (c4_badrequest_iff DEFAULT_CONFIG (runReq "\x7b\x7d") st_idle 0 (.obj []) rfl rfl rfl rfl
    (fun h => Json.noConfusion h)).2 rfl

/-- Claim C5: settlement of the detached `runAgent` task.  On
resolution the continuation clears `thinking`; on rejection it clears
`thinking`, sets `status = ERROR` and records the error's message.
Neither continuation produces a response: the original caller's 200 was
already computed by `handleRequest`, whose result does not depend on the
settlement outcome (`settleRun` is a separate state-only step). -/
theorem c5_settlement (st : RunState) (msg : String) :
    HttpServerService.settleRun (.ok ()) st = { st with thinking := false } ∧
    HttpServerService.settleRun (.error msg) st =
      { st with thinking := false, status := StatusEnum.ERROR,
                errorMsg := some msg } :=
  ⟨rfl, rfl⟩

/-- Claim C6: every authenticated `POST /stop` merges `status = END,
thinking = false` into the store, aborts the stored cancellation handle
when one is present (leaving `abortController` itself in place), and
answers 200 `{success:true, message:"Agent stopped"}` — for every prior
state, so in particular also when no run was active. -/
theorem c6_stop_idempotent (cfg : HttpServerConfig) (req : HttpRequest) (st : RunState)
    (f : Nat)
    (hauth : HttpServerService.authFails cfg req = false)
    (hm : req.method = "POST") (hu : req.url = "/stop") :
    HttpServerService.handleRequest cfg req st f =
      (⟨200, some agentStoppedBody⟩,
       { st with status := StatusEnum.END, thinking := false,
                 abortController :=
                   st.abortController.map (fun ac => { ac with aborted := true }) },
       false) := by
  have hno : req.method ≠ "OPTIONS" := by rw [hm]; decide
  unfold HttpServerService.handleRequest HttpServerService.handleStop
  simp only [hm, hu, hno, hauth]
  cases st.abortController <;> simp

/-- Claim C6 witness: stopping from an idle state (no active run, no
stored handle) still answers 200 and sets `status = END`. -/
theorem c6_witness :
    HttpServerService.handleRequest DEFAULT_CONFIG stopReq st_idle 0 =
      (⟨200, some agentStoppedBody⟩,
       { st_idle with status := StatusEnum.END, thinking := false },
       false) :=
  c6_stop_idempotent DEFAULT_CONFIG stopReq st_idle 0 rfl rfl rfl

/-- Claim C7, counterexample.  The claim asserts 500 for every request
body that is not valid JSON.  The zero-byte body is not valid JSON
(`JSON.parse('')` throws), yet the handler answers 400: the
`body || '\x7b\x7d'` default replaces the empty body before parsing
(exactly the behavior claim C10 records). -/
theorem c7_counterexample :
    jsonParse (runReq "").body = .error "Unexpected end of JSON input" ∧
    (HttpServerService.handleRequest DEFAULT_CONFIG (runReq "") st_idle 0).1.statusCode
      = 400 ∧
    (HttpServerService.handleRequest DEFAULT_CONFIG (runReq "") st_idle 0).1.statusCode
      ≠ 500 :=
  ⟨rfl, rfl, by decide⟩

/-- Claim C7 as amended: for every authenticated `POST /run` whose body
is NON-EMPTY and not valid JSON, the handler answers 500 with the
best-effort parse error message (not 400), leaves the store untouched
and launches no run. -/
theorem c7_malformed_json_500 (cfg : HttpServerConfig) (req : HttpRequest) (st : RunState)
    (f : Nat) (e : String)
    (hauth : HttpServerService.authFails cfg req = false)
    (hm : req.method = "POST") (hu : req.url = "/run")
    (hb : req.body ≠ "")
    (hp : jsonParse req.body = .error e) :
    HttpServerService.handleRequest cfg req st f =
      (⟨500, some (internalErrorBody e)⟩, st, false) := by
  have hno : req.method ≠ "OPTIONS" := by rw [hm]; decide
  have heff : effectiveBody req.body = req.body := by
    unfold effectiveBody
    simp [hb]
  unfold HttpServerService.handleRequest HttpServerService.handleRunEnd
  rw [heff]
  simp [hm, hu, hno, hauth, hp]

/-- Claim C7 witness: the truncated body `"\x7b"` is malformed JSON and
is answered 500 with the store untouched. -/
theorem c7_witness :
    HttpServerService.handleRequest DEFAULT_CONFIG (runReq "\x7b") st_idle 0 =
      (⟨500, some (internalErrorBody "Unexpected end of JSON input")⟩, st_idle, false) :=
  c7_malformed_json_500 DEFAULT_CONFIG (runReq "\x7b") st_idle 0
    "Unexpected end of JSON input" rfl rfl rfl (by decide) rfl

/-- Claim C8: handling a `GET /health` or `GET /status` request returns
the store exactly as it was — whatever the configuration, header, store
contents, and in particular also when the request is rejected by the
authentication gate. -/
theorem c8_health_status_no_mutation (cfg : HttpServerConfig) (req : HttpRequest)
    (st : RunState) (f : Nat)
    (hm : req.method = "GET")
    (hu : req.url = "/health" ∨ req.url = "/status") :
    (HttpServerService.handleRequest cfg req st f).2.1 = st := by
  have hno : req.method ≠ "OPTIONS" := by rw [hm]; decide
  unfold HttpServerService.handleRequest
  rcases hu with hu | hu <;>
    by_cases ha : HttpServerService.authFails cfg req <;>
      simp [hm, hu, hno, ha]

/-- Claim C8 witness: polling `/health` and `/status` on a busy store
leaves it untouched. -/
theorem c8_witness :
    (HttpServerService.handleRequest DEFAULT_CONFIG healthReq st_busy 0).2.1 = st_busy ∧
    (HttpServerService.handleRequest DEFAULT_CONFIG statusReq st_busy 0).2.1 = st_busy :=
  ⟨c8_health_status_no_mutation DEFAULT_CONFIG healthReq st_busy 0 rfl (Or.inl rfl),
   c8_health_status_no_mutation DEFAULT_CONFIG statusReq st_busy 0 rfl (Or.inr rfl)⟩

/-- Claim C9: `setConfig` shallow-merges the partial into the current
configuration (first conjunct) and re-applies the merged configuration
to the listener: a running listener that the merged config disables is
stopped (second conjunct), a stopped listener that the merged config
enables is started (third conjunct), and calling `start` while the
listener is already running changes nothing except logging a warning
(fourth conjunct, the idempotent-start semantics). -/
theorem c9_setconfig_lifecycle (p : PartialHttpServerConfig) (s : ServiceState) :
    (HttpServerService.setConfig p s).config = mergeConfig s.config p ∧
    (s.serverRunning = true → (mergeConfig s.config p).enabled = false →
      (HttpServerService.setConfig p s).serverRunning = false) ∧
    (s.serverRunning = false → (mergeConfig s.config p).enabled = true →
      (HttpServerService.setConfig p s).serverRunning = true) ∧
    (s.serverRunning = true →
      HttpServerService.start s =
        { s with log := s.log ++ ["warn: Server already running"] }) := by
  by_cases hr : s.serverRunning <;>
    by_cases he : (mergeConfig s.config p).enabled <;>
      simp [HttpServerService.setConfig, HttpServerService.stop,
            HttpServerService.start, hr, he]

/-- Claim C9 witness: merged port survives (shallow merge), enabling
while stopped starts the listener, disabling while running stops it, and
a redundant `start` only logs. -/
theorem c9_witness :
    (HttpServerService.setConfig { port := some 8080 } svc_off).config =
      mergeConfig svc_off.config { port := some 8080 } ∧
    (HttpServerService.setConfig { enabled := some true } svc_off).serverRunning = true ∧
    (HttpServerService.setConfig { enabled := some false } svc_on).serverRunning = false ∧
    HttpServerService.start svc_on =
      { svc_on with log := svc_on.log ++ ["warn: Server already running"] } :=
  ⟨(c9_setconfig_lifecycle { port := some 8080 } svc_off).1,
   (c9_setconfig_lifecycle { enabled := some true } svc_off).2.2.1 rfl rfl,
   (c9_setconfig_lifecycle { enabled := some false } svc_on).2.1 rfl rfl,
   (c9_setconfig_lifecycle { enabled := some false } svc_on).2.2.2 rfl⟩

/-- Claim C10: an authenticated `POST /run` with a zero-byte body is not
treated as malformed JSON: `body || '\x7b\x7d'` substitutes the empty
object before parsing, so the handler answers 400
`{error:"Bad Request", message:"instructions is required and must be a
string"}` (not 500) and the store is untouched. -/
theorem c10_empty_body_400 (cfg : HttpServerConfig) (req : HttpRequest) (st : RunState)
    (f : Nat)
    (hauth : HttpServerService.authFails cfg req = false)
    (hm : req.method = "POST") (hu : req.url = "/run")
    (hb : req.body = "") :
    HttpServerService.handleRequest cfg req st f =
      (⟨400, some badRequestBody⟩, st, false) := by
  have hno : req.method ≠ "OPTIONS" := by rw [hm]; decide
  have hroute : HttpServerService.handleRequest cfg req st f =
      HttpServerService.handleRunEnd req.body st f := by
    unfold HttpServerService.handleRequest
    simp [hno, hauth, hm, hu]
  rw [hroute, hb]
  rfl

/-- Claim C10 witness: concrete zero-byte body answered 400 with the
store untouched. -/
theorem c10_witness :
    HttpServerService.handleRequest DEFAULT_CONFIG (runReq "") st_busy 3 =
      (⟨400, some badRequestBody⟩, st_busy, false) :=
  c10_empty_body_400 DEFAULT_CONFIG (runReq "") st_busy 3 rfl rfl rfl rfl
